import Mathlib

/-!
Verification development for The-Scale-Rebel: a shallow embedding of the
security edge filter (netlify/edge-functions/security.ts), the admin OTP
API (netlify/functions/admin-api.mts) and the contact-form mailer
(netlify/functions/send-email.mjs), with theorems settling the testable
properties of the specification.

Modelling conventions:
- timestamps are integers (seconds); SQL NOW() is a parameter `now`;
- Math.random outputs (OTP codes, session tokens) are parameters;
- network effects (the Resend API call) are a boolean success parameter;
- JS regular expression tests are modelled by executable scanners over
  the character list of the subject string; the /i flag is modelled by
  lowercasing (patterns are ASCII); the JS \s class is modelled by the
  ASCII whitespace characters.
-/

namespace ScaleRebel

abbrev Time := Int

/-- JS falsiness of an optional string: undefined or the empty string. -/
def jsFalsy : Option String → Bool
  | none => true
  | some s => s == ""

/-- ASCII whitespace, modelling the JS regex class backslash-s. -/
def wsB (c : Char) : Bool :=
  c == ' ' || c == '\t' || c == '\n' || c == '\r' || c == '\x0b' || c == '\x0c'

def nonWsB (c : Char) : Bool := !wsB c

/-- Characters matched by the JS regex dot (everything but line terminators). -/
def dotB (c : Char) : Bool :=
  c != '\n' && c != '\r' && c != '\u2028' && c != '\u2029'

/-- Does the second list start with the first one? -/
def swList : List Char → List Char → Bool
  | [], _ => true
  | _ :: _, [] => false
  | a :: as, b :: bs => a == b && swList as bs

/-- JS String.prototype.toLowerCase, ASCII range (kernel-reducible,
unlike the position-based core String.toLower). -/
def lowerS (s : String) : String := ⟨s.data.map Char.toLower⟩

/-- JS String.prototype.toUpperCase, ASCII range. -/
def upperS (s : String) : String := ⟨s.data.map Char.toUpper⟩

/-- Kernel-reducible replacement for String.startsWith. -/
def startsWithS (hay needle : String) : Bool := swList needle.data hay.data

/-- Kernel-reducible replacement for String.endsWith. -/
def endsWithS (hay needle : String) : Bool :=
  swList needle.data.reverse hay.data.reverse

/-- JS String.prototype.trim, ASCII whitespace (kernel-reducible). -/
def trimS (s : String) : String :=
  ⟨((s.data.dropWhile wsB).reverse.dropWhile wsB).reverse⟩

/-- JS String.prototype.slice(0, n), counted in characters. -/
def takeS (s : String) (n : Nat) : String := ⟨s.data.take n⟩

/-- Does the predicate hold at some suffix of the list (regex search)? -/
def subAt (p : List Char → Bool) : List Char → Bool
  | [] => p []
  | c :: rest => p (c :: rest) || subAt p rest

/-- Kleene star over a character class, continuation-passing with
backtracking: greedy first, then yield to the continuation. -/
def classStarThen (f : Char → Bool) : List Char → (List Char → Bool) → Bool
  | [], k => k []
  | c :: rest, k => (f c && classStarThen f rest k) || k (c :: rest)

/-- One-or-more repetition of a character class, then the continuation. -/
def classPlusThen (f : Char → Bool) (cs : List Char) (k : List Char → Bool) : Bool :=
  match cs with
  | [] => false
  | c :: rest => f c && classStarThen f rest k

/-- A literal string, then the continuation. -/
def litThen (s : String) (cs : List Char) (k : List Char → Bool) : Bool :=
  swList s.toList cs && k (cs.drop s.length)

/-- Substring search for a literal (regex with no metacharacters). -/
def containsL (hay : List Char) (needle : String) : Bool :=
  subAt (fun cs => swList needle.toList cs) hay

/-- Substring search on strings; the caller lowercases for the /i flag. -/
def containsSub (hay needle : String) : Bool :=
  containsL hay.toList needle

/-- Leading decimal digits of a list, or none when the first character is
not a digit (the NaN case of parseInt). -/
def digitsValAux (acc : Nat) : List Char → Nat
  | [] => acc
  | c :: rest => if c.isDigit then digitsValAux (acc * 10 + (c.toNat - 48)) rest else acc

def digitsVal : List Char → Option Nat
  | [] => none
  | c :: rest => if c.isDigit then some (digitsValAux (c.toNat - 48) rest) else none

/-- JS parseInt(s, 10): skip leading whitespace, optional sign, longest
leading digit run; none models NaN. -/
def parseIntJs (s : String) : Option Int :=
  match (s.toList.dropWhile wsB) with
  | '-' :: rest => (digitsVal rest).map (fun n => -(n : Int))
  | '+' :: rest => (digitsVal rest).map (fun n => (n : Int))
  | cs => (digitsVal cs).map (fun n => (n : Int))

end ScaleRebel

namespace ScaleRebel.Edge

open ScaleRebel

/-- An inbound request as seen by the edge function: method, URL path and
query string, the user-agent header (null when absent), the raw
content-length header value (null when absent), and the set of present
header names (lowercased, as the case-insensitive Headers.has sees them). -/
structure EdgeRequest where
  method : String
  pathname : String
  search : String
  userAgent : Option String
  contentLength : Option String
  headerNames : List String
deriving DecidableEq

/-- BLOCKED_EXTENSIONS from security.ts. -/
def BLOCKED_EXTENSIONS : List String :=
  [".php", ".asp", ".aspx", ".jsp", ".cgi", ".pl", ".exe", ".dll", ".env",
   ".git", ".bak", ".sql", ".config", ".ini", ".log", ".sh", ".bash", ".zsh",
   ".py", ".rb", ".jar", ".war", ".class"]

/-- isBlockedExtension: the lowercased path ends with a blocked extension. -/
def isBlockedExtension (pathname : String) : Bool :=
  let lowerPath := lowerS pathname
  BLOCKED_EXTENSIONS.any (fun ext => endsWithS lowerPath ext)

/-- isBlockedPath: BLOCKED_PATH_PATTERNS.some(p => p.test(pathname)).
Each disjunct models one regex of the source list, in source order; all
patterns carry the /i flag (modelled by lowercasing) except the final
tilde-anchor, which contains no letters. -/
def isBlockedPath (pathname : String) : Bool :=
  let pl := lowerS pathname
  let s := pl.toList
  -- WordPress-specific paths
  containsL s "/wp-admin" || containsL s "/wp-content" || containsL s "/wp-includes" ||
  containsL s "/wp-login" || containsL s "/wp-config" || containsL s "/wp-json" ||
  containsL s "/xmlrpc" || containsL s "/wp-cron" || containsL s "/wp-trackback" ||
  containsL s "/wp-comments" || containsL s "/wordpress" ||
  -- Common CMS paths
  containsL s "/administrator" || containsL s "/joomla" || containsL s "/drupal" ||
  containsL s "/magento" || containsL s "/phpmyadmin" || containsL s "/cpanel" ||
  containsL s "/plesk" || containsL s "/webmail" || containsL s "/roundcube" ||
  containsL s "/squirrelmail" ||
  -- Shell/exploit paths
  containsL s "/shell" || containsL s "/c99" || containsL s "/r57" ||
  containsL s "/alfa" || containsL s "/b374k" || containsL s "/weevely" ||
  containsL s "/wso" ||
  -- Configuration and sensitive files
  containsL s ".git/" || containsL s ".svn/" || containsL s ".hg/" ||
  endsWithS pl ".env" || containsL s ".env." || containsL s ".htaccess" ||
  containsL s ".htpasswd" || containsL s ".npmrc" || containsL s ".dockerenv" ||
  -- the .well-known pattern has a negative lookahead for acme-challenge
  subAt (fun cs => swList "/.well-known/".toList cs &&
    !(swList "acme-challenge".toList (cs.drop 13))) s ||
  -- Backup files
  endsWithS pl ".bak" || endsWithS pl ".backup" || endsWithS pl ".old" ||
  endsWithS pl ".orig" || endsWithS pl ".save" || endsWithS pl ".swp" ||
  endsWithS pathname "~" ||
  -- Database dumps
  endsWithS pl ".sql" || containsL s "dump." || containsL s "backup." ||
  containsL s "database." || containsL s "db." ||
  -- Common attack paths
  containsL s "/cgi-bin/" || containsL s "/scripts/" || containsL s "/bin/" ||
  containsL s "/etc/passwd" || containsL s "/proc/" || containsL s "/var/log" ||
  containsL s "/tmp/" ||
  -- Probe paths
  containsL s "/eval" || containsL s "/exec" || containsL s "/system" ||
  containsL s "/passthru" || containsL s "/actuator" || containsL s "/console" ||
  containsL s "/debug" || containsL s "/trace" || containsL s "/manager" ||
  subAt (fun cs => litThen "/api/v" cs (fun r =>
    classPlusThen Char.isDigit r (fun r2 => swList "/admin".toList r2))) s ||
  -- Common vulnerability endpoints
  containsL s "/solr" || containsL s "/jenkins" || containsL s "/struts" ||
  containsL s "/log4j" || containsL s "/vendor/" || containsL s "/node_modules/" ||
  containsL s "/bower_components/"

/-- hasSuspiciousQuery: BLOCKED_QUERY_PATTERNS.some(p => p.test(search)),
with an early false for the empty query string (JS falsiness). Each
disjunct models one source regex in order. -/
def hasSuspiciousQuery (search : String) : Bool :=
  if search == "" then false
  else
    let s := (lowerS search).toList
    -- null byte injection: %00 or literal backslash-x00
    (containsL s "%00" || containsL s "\\x00") ||
    containsL s "<script" || containsL s "javascript:" || containsL s "vbscript:" ||
    containsL s "data:" || containsL s "base64," ||
    -- union\s+select
    subAt (fun cs => litThen "union" cs (fun r =>
      classPlusThen wsB r (fun r2 => swList "select".toList r2))) s ||
    -- select\s+.*\s+from
    subAt (fun cs => litThen "select" cs (fun r =>
      classPlusThen wsB r (fun r2 => classStarThen dotB r2 (fun r3 =>
        classPlusThen wsB r3 (fun r4 => swList "from".toList r4))))) s ||
    -- insert\s+into
    subAt (fun cs => litThen "insert" cs (fun r =>
      classPlusThen wsB r (fun r2 => swList "into".toList r2))) s ||
    -- drop\s+table
    subAt (fun cs => litThen "drop" cs (fun r =>
      classPlusThen wsB r (fun r2 => swList "table".toList r2))) s ||
    -- delete\s+from
    subAt (fun cs => litThen "delete" cs (fun r =>
      classPlusThen wsB r (fun r2 => swList "from".toList r2))) s ||
    -- update\s+.*\s+set
    subAt (fun cs => litThen "update" cs (fun r =>
      classPlusThen wsB r (fun r2 => classStarThen dotB r2 (fun r3 =>
        classPlusThen wsB r3 (fun r4 => swList "set".toList r4))))) s ||
    -- SQL comment injection: semicolon, anything, double dash
    subAt (fun cs => litThen ";" cs (fun r =>
      classStarThen dotB r (fun r2 => swList "--".toList r2))) s ||
    containsL s "../" || containsL s "%2e%2e" ||
    -- template injection: dollar-brace ... close-brace
    subAt (fun cs => litThen "$\x7b" cs (fun r =>
      classStarThen dotB r (fun r2 => swList "\x7d".toList r2))) s ||
    -- template injection: double open braces ... double close braces
    subAt (fun cs => litThen "\x7b\x7b" cs (fun r =>
      classStarThen dotB r (fun r2 => swList "\x7d\x7d".toList r2))) s ||
    containsL s "$poison" ||
    -- eval\s*( and exec\s*( and system\s*(
    subAt (fun cs => litThen "eval" cs (fun r =>
      classStarThen wsB r (fun r2 => swList "(".toList r2))) s ||
    subAt (fun cs => litThen "exec" cs (fun r =>
      classStarThen wsB r (fun r2 => swList "(".toList r2))) s ||
    containsL s "cmd=" || containsL s "passwd" || containsL s "etc/shadow" ||
    containsL s "phpinfo" ||
    subAt (fun cs => litThen "system" cs (fun r =>
      classStarThen wsB r (fun r2 => swList "(".toList r2))) s ||
    containsL s "file://" || containsL s "gopher://" || containsL s "dict://"

/-- BLOCKED_USER_AGENTS.some(p => p.test(ua)): substring scanner names,
plus the empty-string anchor pattern. -/
def blockedUserAgents (ua : String) : Bool :=
  let l := lowerS ua
  containsSub l "sqlmap" || containsSub l "nikto" || containsSub l "nmap" ||
  containsSub l "masscan" || containsSub l "zmeu" || containsSub l "morfeus" ||
  containsSub l "zgrab" || containsSub l "gobuster" || containsSub l "dirbuster" ||
  containsSub l "wpscan" || containsSub l "nessus" || containsSub l "openvas" ||
  containsSub l "nuclei" || containsSub l "acunetix" || containsSub l "burpsuite" ||
  containsSub l "havij" || containsSub l "w3af" || containsSub l "arachni" ||
  containsSub l "qualys" || ua == ""

/-- isSuspiciousUserAgent: null is suspicious, otherwise the denylist. -/
def isSuspiciousUserAgent : Option String → Bool
  | none => true
  | some ua => blockedUserAgents ua

/-- The inline known-malicious regex of the handler:
sqlmap|nikto|zmeu|morfeus|zgrab|wpscan|acunetix|havij|w3af with /i. -/
def maliciousUA (ua : String) : Bool :=
  let l := lowerS ua
  containsSub l "sqlmap" || containsSub l "nikto" || containsSub l "zmeu" ||
  containsSub l "morfeus" || containsSub l "zgrab" || containsSub l "wpscan" ||
  containsSub l "acunetix" || containsSub l "havij" || containsSub l "w3af"

/-- The guard `userAgent && malicious.test(userAgent)` of the handler:
the user-agent must be truthy (present and non-empty) and match. -/
def maliciousUATest : Option String → Bool
  | none => false
  | some ua => ua != "" && maliciousUA ua

/-- SUSPICIOUS_HEADERS from security.ts. -/
def SUSPICIOUS_HEADERS : List String :=
  ["x-forwarded-host", "x-original-url", "x-rewrite-url"]

def hasSuspiciousHeaders (r : EdgeRequest) : Bool :=
  SUSPICIOUS_HEADERS.any (fun h => r.headerNames.contains h)

/-- isOversizedRequest: a truthy content-length header parsing to more
than 1 MiB (1048576); an unparsable header (NaN) never compares greater. -/
def isOversizedRequest (r : EdgeRequest) : Bool :=
  match r.contentLength with
  | none => false
  | some cl =>
    if cl == "" then false
    else
      match parseIntJs cl with
      | none => false
      | some size => decide (1048576 < size)

/-- Outcome of the edge function: a blocking response or context.next(). -/
inductive EdgeDecision where
  | block (status : Nat)
  | next
deriving DecidableEq

/-- The tail of the handler after the user-agent check: the method policy
and the POST path allowlist, then context.next(). -/
def methodPhase (r : EdgeRequest) : EdgeDecision :=
  let method := upperS r.method
  let isAdminPath := startsWithS r.pathname "/api/admin/"
  let allowedMethods :=
    if isAdminPath then ["GET", "HEAD", "OPTIONS", "POST", "PUT", "DELETE"]
    else ["GET", "HEAD", "OPTIONS", "POST"]
  if !(allowedMethods.contains method) then .block 405
  else if method == "POST" &&
      !(["/api/send-email", "/api/admin/", "/.netlify/functions/"].any
        (fun path => startsWithS r.pathname path)) then .block 405
  else .next

/-- The edge handler: the rule chain of security.ts in source order,
first match wins. In the user-agent branch the source logs and falls
through when the agent is suspicious but not in the malicious subset;
logging is not modelled, so both fall-through branches continue with
`methodPhase`. -/
def edgeDecision (r : EdgeRequest) : EdgeDecision :=
  if isOversizedRequest r then .block 413
  else if isBlockedExtension r.pathname then .block 404
  else if isBlockedPath r.pathname then .block 404
  else if hasSuspiciousQuery r.search then .block 400
  else if hasSuspiciousHeaders r then .block 400
  else if isSuspiciousUserAgent r.userAgent then
    if maliciousUATest r.userAgent then .block 403
    else methodPhase r
  else methodPhase r

end ScaleRebel.Edge

namespace ScaleRebel.AdminApi

open ScaleRebel

/-- A row of the otp_codes table. -/
structure OtpCode where
  id : Nat
  email : String
  code : String
  expiresAt : Time
  used : Bool
  createdAt : Time
deriving DecidableEq

/-- A row of the admin_sessions table. -/
structure Session where
  id : Nat
  token : String
  email : String
  expiresAt : Time
  createdAt : Time
deriving DecidableEq

/-- A row of the clients table. -/
structure Client where
  id : Nat
  name : String
  email : Option String
  phone : Option String
  company : Option String
  status : String
  budget : Option String
  deadline : Option String
  cost : Option String
  notes : Option String
  createdAt : Time
  updatedAt : Time
deriving DecidableEq

/-- A row of the inquiries table (client_id is nullable). -/
structure Inquiry where
  id : Nat
  clientId : Option Nat
  name : String
  email : String
  company : Option String
  budget : Option String
  message : Option String
  createdAt : Time
deriving DecidableEq

/-- The relational store. Lists model tables; SERIAL keys are modelled
by one more than the current maximum id (monotonicity across deletes is
not needed by any claim). -/
structure DB where
  clients : List Client
  inquiries : List Inquiry
  otpCodes : List OtpCode
  sessions : List Session
deriving DecidableEq

/-- The environment variables the admin API reads. -/
structure Env where
  adminEmail : Option String
  resendApiKey : Option String
  fromEmail : Option String
deriving DecidableEq

def nextOtpId (l : List OtpCode) : Nat := (l.foldl (fun m x => max m x.id) 0) + 1

def nextSessionId (l : List Session) : Nat := (l.foldl (fun m x => max m x.id) 0) + 1

def nextClientId (l : List Client) : Nat := (l.foldl (fun m x => max m x.id) 0) + 1

/-- Response bodies produced by the admin API. -/
inductive ABody where
  | empty204
  | sent
  | tokenBody (token : String) (expiresIn : Nat)
  | okSimple
  | errBody (msg : String)
  | clientsList (cs : List Client)
  | clientDetail (c : Client) (inqs : List Inquiry)
  | clientRow (c : Client)
  | deletedClient (c : Client)
  | inquiriesList (rows : List (Inquiry × Option String))
  | linkedInquiry (i : Inquiry)
deriving DecidableEq

structure AResp where
  status : Nat
  body : ABody
deriving DecidableEq

def errResp (msg : String) (status : Nat) : AResp := ⟨status, .errBody msg⟩

/-- handleCors: the CORS preflight response (status 204, empty body). -/
def corsResp : AResp := ⟨204, .empty204⟩

/-- checkAuth: a Bearer header whose token matches a session row with
expiry strictly in the future. The source extracts the token with
replace("Bearer ", ""), which removes the first occurrence; under the
startsWith guard that occurrence is the first 7 characters. -/
def checkAuth (authHeader : Option String) (now : Time) (db : DB) : Bool :=
  match authHeader with
  | none => false
  | some h =>
    if startsWithS h "Bearer " then
      let token := h.drop 7
      db.sessions.any (fun s => s.token == token && decide (now < s.expiresAt))
    else false

/-- sendOTP, POST /api/admin/otp/send. `newCode` stands for the random
6-digit generateOTP output and `emailSendOk` for the Resend API call
succeeding; the mail body itself is not modelled. -/
def sendOTP (env : Env) (now : Time) (newCode : String) (emailSendOk : Bool)
    (email : Option String) (db : DB) : AResp × DB :=
  if jsFalsy email then (errResp "Email is required" 400, db)
  else
    let e := email.getD ""
    if jsFalsy env.adminEmail then (errResp "Admin login not configured" 500, db)
    else
      let adminEmail := env.adminEmail.getD ""
      if lowerS e != lowerS adminEmail then
        -- do not reveal whether the email exists
        (⟨200, .sent⟩, db)
      else
        -- DELETE FROM otp_codes WHERE expires_at < NOW()
        let codes1 := db.otpCodes.filter (fun x => !decide (x.expiresAt < now))
        let db1 : DB := { db with otpCodes := codes1 }
        -- COUNT(*) WHERE email = lower(e) AND created_at > NOW() - 15 minutes
        let recent := codes1.countP
          (fun x => x.email == lowerS e && decide (now - 900 < x.createdAt))
        if 5 ≤ recent then (errResp "Too many attempts. Try again later." 429, db1)
        else
          -- INSERT with a 10-minute expiry (600 seconds)
          let row : OtpCode :=
            ⟨nextOtpId codes1, lowerS e, newCode, now + 600, false, now⟩
          let db2 : DB := { db1 with otpCodes := codes1 ++ [row] }
          if jsFalsy env.resendApiKey || jsFalsy env.fromEmail then
            (errResp "Email service not configured" 500, db2)
          else if !emailSendOk then
            (errResp "Failed to send verification email" 500, db2)
          else (⟨200, .sent⟩, db2)

/-- The WHERE clause of the verifyOTP lookup. -/
def otpMatch (e c : String) (now : Time) (o : OtpCode) : Bool :=
  o.email == lowerS e && o.code == c && decide (now < o.expiresAt) && o.used == false

/-- ORDER BY created_at DESC LIMIT 1 over the rows satisfying p: the
matching row with the greatest created_at (ties keep the earlier row of
the list, which SQL leaves unspecified). -/
def latestMatch (p : OtpCode → Bool) (l : List OtpCode) : Option OtpCode :=
  (l.filter p).foldl
    (fun acc c =>
      match acc with
      | none => some c
      | some b => if decide (b.createdAt < c.createdAt) then some c else some b)
    none

/-- verifyOTP, POST /api/admin/otp/verify. `newToken` stands for the
random generateSessionToken output. -/
def verifyOTP (env : Env) (now : Time) (newToken : String)
    (email code : Option String) (db : DB) : AResp × DB :=
  if jsFalsy email || jsFalsy code then
    (errResp "Email and code are required" 400, db)
  else
    let e := email.getD ""
    let c := code.getD ""
    if jsFalsy env.adminEmail || lowerS e != lowerS (env.adminEmail.getD "") then
      (errResp "Invalid code" 401, db)
    else
      match latestMatch (otpMatch e c now) db.otpCodes with
      | none => (errResp "Invalid or expired code" 401, db)
      | some o =>
        -- UPDATE otp_codes SET used = TRUE WHERE id = o.id
        let codes1 := db.otpCodes.map
          (fun x => if x.id == o.id then { x with used := true } else x)
        -- DELETE FROM admin_sessions WHERE expires_at < NOW()
        let sess1 := db.sessions.filter (fun s => !decide (s.expiresAt < now))
        -- INSERT a session with a 24-hour expiry (86400 seconds)
        let srow : Session := ⟨nextSessionId sess1, newToken, lowerS e, now + 86400, now⟩
        (⟨200, .tokenBody newToken 86400⟩,
          { db with otpCodes := codes1, sessions := sess1 ++ [srow] })

/-- logout, POST /api/admin/otp/logout: always returns success and
deletes the session row matching the presented Bearer token, if any. -/
def logout (authHeader : Option String) (db : DB) : AResp × DB :=
  match authHeader with
  | some h =>
    if startsWithS h "Bearer " then
      let token := h.drop 7
      (⟨200, .okSimple⟩,
        { db with sessions := db.sessions.filter (fun s => !(s.token == token)) })
    else (⟨200, .okSimple⟩, db)
  | none => (⟨200, .okSimple⟩, db)

/-- Insertion into a list sorted by descending time key. -/
def insertByDesc (key : Inquiry → Time) (x : Inquiry) : List Inquiry → List Inquiry
  | [] => [x]
  | y :: ys => if decide (key y < key x) then x :: y :: ys else y :: insertByDesc key x ys

/-- ORDER BY created_at DESC for inquiries (ties in unspecified order,
as in SQL). -/
def sortInquiriesDesc (l : List Inquiry) : List Inquiry :=
  l.foldr (insertByDesc (fun i => i.createdAt)) []

def insertClientByDesc (x : Client) : List Client → List Client
  | [] => [x]
  | y :: ys => if decide (y.updatedAt < x.updatedAt) then x :: y :: ys else y :: insertClientByDesc x ys

/-- ORDER BY updated_at DESC for clients. -/
def sortClientsDesc (l : List Client) : List Client :=
  l.foldr insertClientByDesc []

/-- getClients, GET /api/admin/clients, optionally with an ?id= query
parameter (already parsed; a non-numeric value is not modelled). -/
def getClients (queryId : Option Nat) (db : DB) : AResp × DB :=
  match queryId with
  | some cid =>
    match db.clients.find? (fun c => c.id == cid) with
    | none => (errResp "Client not found" 404, db)
    | some c =>
      let inqs := sortInquiriesDesc (db.inquiries.filter (fun i => i.clientId == some cid))
      (⟨200, .clientDetail c inqs⟩, db)
  | none => (⟨200, .clientsList (sortClientsDesc db.clients)⟩, db)

/-- JS `value || null` on an optional string column: empty string
becomes null. -/
def toNull (o : Option String) : Option String :=
  match o with
  | none => none
  | some s => if s == "" then none else some s

/-- The JSON body fields the admin CRUD endpoints read. A `none` models
an absent (or JS-falsy, for the id fields) value; an explicit JSON null
in a present field is not distinguished from absence. -/
structure CrudBody where
  name : Option String
  email : Option String
  phone : Option String
  company : Option String
  status : Option String
  budget : Option String
  deadline : Option String
  cost : Option String
  notes : Option String
  id : Option Nat
  inquiryId : Option Nat
  clientId : Option Nat
deriving DecidableEq

/-- createClient, POST /api/admin/clients. The destructuring default
`status = "lead"` applies only when the field is absent. -/
def createClient (body : CrudBody) (now : Time) (db : DB) : AResp × DB :=
  if jsFalsy body.name then (errResp "Name is required" 400, db)
  else
    let c : Client :=
      ⟨nextClientId db.clients, body.name.getD "", toNull body.email, toNull body.phone,
        toNull body.company, body.status.getD "lead", toNull body.budget,
        toNull body.deadline, toNull body.cost, toNull body.notes, now, now⟩
    (⟨201, .clientRow c⟩, { db with clients := db.clients ++ [c] })

/-- One field of the dynamic UPDATE: when present in the body, store
`value || null`. Setting the NOT NULL name column to null would raise a
database error (a 500 in the source); that error path is not modelled
and the empty-string name is stored as given. -/
def applyUpdate (body : CrudBody) (now : Time) (c : Client) : Client :=
  { c with
    name := match body.name with | none => c.name | some s => s
    email := match body.email with | none => c.email | some _ => toNull body.email
    phone := match body.phone with | none => c.phone | some _ => toNull body.phone
    company := match body.company with | none => c.company | some _ => toNull body.company
    status := match body.status with | none => c.status | some s => s
    budget := match body.budget with | none => c.budget | some _ => toNull body.budget
    deadline := match body.deadline with | none => c.deadline | some _ => toNull body.deadline
    cost := match body.cost with | none => c.cost | some _ => toNull body.cost
    notes := match body.notes with | none => c.notes | some _ => toNull body.notes
    updatedAt := now }

def anyUpdateField (body : CrudBody) : Bool :=
  body.name.isSome || body.email.isSome || body.phone.isSome || body.company.isSome ||
  body.status.isSome || body.budget.isSome || body.deadline.isSome || body.cost.isSome ||
  body.notes.isSome

/-- updateClient, PUT /api/admin/clients. -/
def updateClient (body : CrudBody) (now : Time) (db : DB) : AResp × DB :=
  match body.id with
  | none => (errResp "Client ID is required" 400, db)
  | some cid =>
    if !anyUpdateField body then (errResp "No fields to update" 400, db)
    else
      match db.clients.find? (fun c => c.id == cid) with
      | none => (errResp "Client not found" 404, db)
      | some c0 =>
        let c1 := applyUpdate body now c0
        let cls1 := db.clients.map (fun c => if c.id == cid then applyUpdate body now c else c)
        (⟨200, .clientRow c1⟩, { db with clients := cls1 })

/-- deleteClient, DELETE /api/admin/clients. The schema has
ON DELETE SET NULL for inquiries.client_id, so linked inquiries keep
existing with a cleared reference. -/
def deleteClient (body : CrudBody) (db : DB) : AResp × DB :=
  match body.id with
  | none => (errResp "Client ID is required" 400, db)
  | some cid =>
    match db.clients.find? (fun c => c.id == cid) with
    | none => (errResp "Client not found" 404, db)
    | some c0 =>
      let cls1 := db.clients.filter (fun c => !(c.id == cid))
      let inqs1 := db.inquiries.map
        (fun i => if i.clientId == some cid then { i with clientId := none } else i)
      (⟨200, .deletedClient c0⟩, { db with clients := cls1, inquiries := inqs1 })

/-- getInquiries, GET /api/admin/inquiries: each inquiry with the LEFT
JOINed client name. -/
def getInquiries (db : DB) : AResp × DB :=
  let rows := (sortInquiriesDesc db.inquiries).map
    (fun i =>
      (i, match i.clientId with
          | none => none
          | some cid => (db.clients.find? (fun c => c.id == cid)).map (fun c => c.name)))
  (⟨200, .inquiriesList rows⟩, db)

/-- linkInquiry, POST /api/admin/inquiries/link. The foreign-key check
that the client exists (a database error, hence 500) is not modelled. -/
def linkInquiry (body : CrudBody) (db : DB) : AResp × DB :=
  match body.inquiryId, body.clientId with
  | none, _ => (errResp "inquiry_id and client_id are required" 400, db)
  | some _, none => (errResp "inquiry_id and client_id are required" 400, db)
  | some iid, some cid =>
    match db.inquiries.find? (fun i => i.id == iid) with
    | none => (errResp "Inquiry not found" 404, db)
    | some i0 =>
      let inqs1 := db.inquiries.map
        (fun i => if i.id == iid then { i with clientId := some cid } else i)
      (⟨200, .linkedInquiry { i0 with clientId := some cid }⟩, { db with inquiries := inqs1 })

/-- A request to the admin API: method, URL path, Authorization header,
the parsed ?id= query parameter, and the JSON body fields (the OTP
fields and the CRUD fields live in the same JSON object). -/
structure AdminReq where
  method : String
  pathname : String
  authHeader : Option String
  queryId : Option Nat
  email : Option String
  code : Option String
  body : CrudBody
deriving DecidableEq

/-- The main handler: CORS preflight first, then the three
unauthenticated OTP routes, then the checkAuth gate, then the CRUD
routes, else 404. Route regexes such as /\/api\/admin\/otp\/send$/ are
end-anchored only, hence endsWith. initializeDatabase only issues
CREATE TABLE IF NOT EXISTS and is a no-op on the modelled state. -/
def handler (env : Env) (now : Time) (newCode newToken : String) (emailSendOk : Bool)
    (req : AdminReq) (db : DB) : AResp × DB :=
  if req.method == "OPTIONS" then (corsResp, db)
  else if req.method == "POST" && endsWithS req.pathname "/api/admin/otp/send" then
    sendOTP env now newCode emailSendOk req.email db
  else if req.method == "POST" && endsWithS req.pathname "/api/admin/otp/verify" then
    verifyOTP env now newToken req.email req.code db
  else if req.method == "POST" && endsWithS req.pathname "/api/admin/otp/logout" then
    logout req.authHeader db
  else if !checkAuth req.authHeader now db then (errResp "Unauthorized" 401, db)
  else if req.method == "GET" && endsWithS req.pathname "/api/admin/clients" then
    getClients req.queryId db
  else if req.method == "GET" && endsWithS req.pathname "/api/admin/inquiries" then
    getInquiries db
  else if req.method == "POST" && endsWithS req.pathname "/api/admin/clients" then
    createClient req.body now db
  else if req.method == "POST" && endsWithS req.pathname "/api/admin/inquiries/link" then
    linkInquiry req.body db
  else if req.method == "PUT" && endsWithS req.pathname "/api/admin/clients" then
    updateClient req.body now db
  else if req.method == "DELETE" && endsWithS req.pathname "/api/admin/clients" then
    deleteClient req.body db
  else (errResp "Not found" 404, db)

end ScaleRebel.AdminApi


namespace ScaleRebel.SendEmail

open ScaleRebel
open ScaleRebel.AdminApi (Inquiry)

/-- The environment variables the mailer reads. -/
structure MailEnv where
  resendApiKey : Option String
  contactEmail : Option String
  fromEmail : Option String
deriving DecidableEq

/-- The parsed JSON body of a contact submission (the FormData shape of
the source); none models an absent field. -/
structure Form where
  name : Option String
  email : Option String
  phone : Option String
  company : Option String
  budget : Option String
  message : Option String
  website : Option String
deriving DecidableEq

inductive MBody where
  | okBody
  | errBody (msg : String)
deriving DecidableEq

structure MResp where
  status : Nat
  body : MBody
deriving DecidableEq

/-- What a run of the handler produced: the wire response, the inquiries
table afterwards, and how many Resend API requests were attempted. -/
structure Outcome where
  resp : MResp
  inquiries : List Inquiry
  emailsRequested : Nat
deriving DecidableEq

/-- sanitizeInput: trim, then cut to maxLength characters. -/
def sanitizeInput (text : String) (maxLength : Nat) : String :=
  takeS (trimS text) maxLength

/-- isValidEmail: the anchored regex, one or more characters outside
whitespace and @, an @, one or more again, a literal dot, one or more
to the end (backtracking, since the class itself admits dots). -/
def emailAtomChar (c : Char) : Bool := !wsB c && c != '@'

def isValidEmail (email : String) : Bool :=
  classPlusThen emailAtomChar email.toList (fun r =>
    match r with
    | '@' :: r2 => classPlusThen emailAtomChar r2 (fun r3 =>
        match r3 with
        | '.' :: r4 => classPlusThen emailAtomChar r4 (fun r5 => r5.isEmpty)
        | _ => false)
    | _ => false)

/-- isValidName: no http(s) URL, none of the eight special characters,
at least one ASCII letter. -/
def isValidName (name : String) : Bool :=
  let l := lowerS name
  if containsSub l "http://" || containsSub l "https://" then false
  else if name.toList.any (fun c =>
      c == '<' || c == '>' || c == '\x7b' || c == '\x7d' ||
      c == '[' || c == ']' || c == '\\' || c == '/') then false
  else if !(name.toList.any Char.isAlpha) then false
  else true

/-- http:// or https://, then the continuation (regex https?://). -/
def httpThen (cs : List Char) (k : List Char → Bool) : Bool :=
  litThen "http" cs (fun r => litThen "s://" r k || litThen "://" r k)

/-- The multiple-URL spam regex: three URL starts separated by
non-whitespace runs and whitespace runs. -/
def tripleUrl (s : List Char) : Bool :=
  subAt (fun cs => httpThen cs (fun r1 =>
    classPlusThen nonWsB r1 (fun r2 =>
      classPlusThen wsB r2 (fun r3 =>
        httpThen r3 (fun r4 =>
          classPlusThen nonWsB r4 (fun r5 =>
            classPlusThen wsB r5 (fun r6 =>
              httpThen r6 (fun _ => true)))))))) s

/-- containsSpamPatterns: the seven spam regexes, in source order. -/
def containsSpamPatterns (text : String) : Bool :=
  let s := (lowerS text).toList
  containsL s "[url=" ||
  containsL s "[/url]" ||
  subAt (fun cs => litThen "<a" cs (fun r =>
    classPlusThen wsB r (fun r2 => swList "href=".toList r2))) s ||
  tripleUrl s ||
  (containsL s "viagra" || containsL s "cialis" || containsL s "casino" ||
    containsL s "lottery" || containsL s "winner" ||
    subAt (fun cs => litThen "bitcoin" cs (fun r =>
      classStarThen dotB r (fun r2 => swList "invest".toList r2))) s) ||
  subAt (fun cs => litThen "click" cs (fun r =>
    classPlusThen wsB r (fun r2 => litThen "here" r2 (fun r3 =>
      classStarThen dotB r3 (fun r4 => swList "http".toList r4))))) s ||
  (containsL s "$$$" || containsL s "make money fast" ||
    subAt (fun cs => litThen "work from home" cs (fun r =>
      classStarThen dotB r (fun r2 => swList "$".toList r2))) s)

/-- The honeypot guard: a truthy website field whose trim is non-empty. -/
def honeypotTripped (f : Form) : Bool :=
  match f.website with
  | none => false
  | some w => w != "" && trimS w != ""

def nextInquiryId (l : List Inquiry) : Nat := (l.foldl (fun m x => max m x.id) 0) + 1

/-- JS `field ? sanitizeInput(field, n) : null`. -/
def sanitizeOpt (o : Option String) (n : Nat) : Option String :=
  match o with
  | none => none
  | some s => if s == "" then none else some (sanitizeInput s n)

/-- The send-email handler. `form` is the parsed JSON body (none models
a parse failure, the SyntaxError catch); `mainSendOk` is the primary
Resend call succeeding and `mainFailMsg` the user message its error
parser would pick; `dbOk` is the inquiry INSERT succeeding (its failure
is swallowed). The email bodies, the confirmation-send failure (also
swallowed) and console logging are not modelled; both Resend calls are
counted in emailsRequested. -/
def handler (env : MailEnv) (now : Time) (mainSendOk : Bool) (mainFailMsg : String)
    (dbOk : Bool) (method : String) (form? : Option Form)
    (inquiries : List Inquiry) : Outcome :=
  if method != "POST" then ⟨⟨405, .errBody "Method not allowed"⟩, inquiries, 0⟩
  else
    match form? with
    | none => ⟨⟨400, .errBody "Invalid request format"⟩, inquiries, 0⟩
    | some form =>
      if honeypotTripped form then
        -- return success to not reveal detection to bots
        ⟨⟨200, .okBody⟩, inquiries, 0⟩
      else
        let name := sanitizeInput (form.name.getD "") 200
        let email := sanitizeInput (form.email.getD "") 254
        let message := sanitizeInput (form.message.getD "") 10000
        if name == "" || email == "" || message == "" then
          ⟨⟨400, .errBody "Missing required fields: name, email, and message are required"⟩,
            inquiries, 0⟩
        else if !isValidEmail email then
          ⟨⟨400, .errBody "Please provide a valid email address"⟩, inquiries, 0⟩
        else if !isValidName name then
          ⟨⟨400, .errBody "Please provide a valid name"⟩, inquiries, 0⟩
        else if containsSpamPatterns message || containsSpamPatterns name then
          -- return success to not reveal detection
          ⟨⟨200, .okBody⟩, inquiries, 0⟩
        else if jsFalsy env.resendApiKey || jsFalsy env.contactEmail || jsFalsy env.fromEmail then
          ⟨⟨500, .errBody "Email service not configured. Please contact us directly."⟩,
            inquiries, 0⟩
        else if !mainSendOk then
          ⟨⟨500, .errBody mainFailMsg⟩, inquiries, 1⟩
        else
          let inquiries1 :=
            if dbOk then
              inquiries ++
                [⟨nextInquiryId inquiries, none, name, email,
                  sanitizeOpt form.company 200, sanitizeOpt form.budget 100,
                  some message, now⟩]
            else inquiries
          ⟨⟨200, .okBody⟩, inquiries1, 2⟩

end ScaleRebel.SendEmail


/-! Helper lemmas -/

open ScaleRebel ScaleRebel.Edge ScaleRebel.AdminApi ScaleRebel.SendEmail

theorem filter_idem {α : Type} (p : α → Bool) (l : List α) :
    (l.filter p).filter p = l.filter p := by
  induction l with
  | nil => rfl
  | cons a t ih =>
    by_cases h : p a = true
    · simp [List.filter_cons, h, ih]
    · simp only [Bool.not_eq_true] at h
      simp [List.filter_cons, h, ih]

theorem latestMatch_of_none (p : OtpCode → Bool) (l : List OtpCode)
    (h : ∀ x ∈ l, p x = false) : latestMatch p l = none := by
  unfold latestMatch
  have hnil : l.filter p = [] := by
    induction l with
    | nil => rfl
    | cons a t ih =>
      have ha := h a (by simp)
      simp only [List.filter_cons, ha]
      exact ih (fun x hx => h x (by simp [hx]))
  rw [hnil]
  rfl

theorem latestMatch_foldl_const (o : OtpCode) (m : List OtpCode)
    (h : ∀ x ∈ m, x = o) :
    m.foldl
      (fun acc c =>
        match acc with
        | none => some c
        | some b => if decide (b.createdAt < c.createdAt) then some c else some b)
      (some o) = some o := by
  induction m with
  | nil => rfl
  | cons a t ih =>
    have ha : a = o := h a (by simp)
    subst ha
    simp only [List.foldl_cons]
    have : (if decide (a.createdAt < a.createdAt) then some a else some a) = some a := by
      exact ite_self _
    rw [this]
    exact ih (fun x hx => h x (by simp [hx]))

theorem latestMatch_of_unique (p : OtpCode → Bool) (l : List OtpCode) (o : OtpCode)
    (ho : o ∈ l) (hpo : p o = true) (huniq : ∀ x ∈ l, p x = true → x = o) :
    latestMatch p l = some o := by
  have hall : ∀ x ∈ l.filter p, x = o := by
    intro x hx
    rw [List.mem_filter] at hx
    exact huniq x hx.1 hx.2
  have hmem : o ∈ l.filter p := List.mem_filter.mpr ⟨ho, hpo⟩
  unfold latestMatch
  cases hf : l.filter p with
  | nil => rw [hf] at hmem; cases hmem
  | cons a as =>
    rw [hf] at hall
    have ha : a = o := hall a (by simp)
    subst ha
    simp only [List.foldl_cons]
    exact latestMatch_foldl_const a as (fun x hx => hall x (by simp [hx]))

/-- Unpack the otpMatch conjunction. -/
theorem otpMatch_eq_true_iff (e c : String) (now : Time) (o : OtpCode) :
    otpMatch e c now o = true ↔
      o.email = lowerS e ∧ o.code = c ∧ now < o.expiresAt ∧ o.used = false := by
  unfold otpMatch
  simp [Bool.and_eq_true, and_assoc]

/-! Claim theorems -/

/-- Claim C10 (confirmed): every OPTIONS request to the admin API is
answered with the CORS preflight response of status 204, before and
without any authentication check, with the store untouched — so OPTIONS
never returns 401 even with no Authorization header. -/
theorem C10_options_preflight (env : Env) (now : Time) (newCode newToken : String)
    (emailSendOk : Bool) (req : AdminReq) (db : DB) (hm : req.method = "OPTIONS") :
    AdminApi.handler env now newCode newToken emailSendOk req db = (corsResp, db) ∧
    corsResp.status = 204 ∧
    (AdminApi.handler env now newCode newToken emailSendOk req db).1.status ≠ 401 := by
  have hc : (req.method == "OPTIONS") = true := beq_iff_eq.mpr hm
  have hrun : AdminApi.handler env now newCode newToken emailSendOk req db = (corsResp, db) := by
    unfold AdminApi.handler
    simp [hc]
  refine ⟨hrun, rfl, ?_⟩
  rw [hrun]
  simp [corsResp]

/-- Witness for C10: a concrete OPTIONS request with no Authorization
header on an admin route is answered 204. -/
theorem C10_options_preflight_witness :
    AdminApi.handler ⟨some "a@b.c", some "K", some "F"⟩ 0 "c" "t" true
        ⟨"OPTIONS", "/api/admin/clients", none, none, none, none,
          ⟨none, none, none, none, none, none, none, none, none, none, none, none⟩⟩
        ⟨[], [], [], []⟩ =
      (corsResp, ⟨[], [], [], []⟩) :=
  (C10_options_preflight ⟨some "a@b.c", some "K", some "F"⟩ 0 "c" "t" true
    ⟨"OPTIONS", "/api/admin/clients", none, none, none, none,
      ⟨none, none, none, none, none, none, none, none, none, none, none, none⟩⟩
    ⟨[], [], [], []⟩ rfl).1

/-- Claim C8 (confirmed): logout always returns success-200 for every
bearer token, valid, invalid or absent; with a Bearer header it deletes
exactly the session rows carrying the presented token; it is idempotent;
and with no header the store is untouched. -/
theorem C8_logout_always_succeeds :
    (∀ (hdr : Option String) (db : DB),
      (AdminApi.logout hdr db).1 = ⟨200, ABody.okSimple⟩) ∧
    (∀ (h : String) (db : DB), startsWithS h "Bearer " = true →
      (AdminApi.logout (some h) db).2.sessions =
        db.sessions.filter (fun s => !(s.token == h.drop 7))) ∧
    (∀ (hdr : Option String) (db : DB),
      AdminApi.logout hdr ((AdminApi.logout hdr db).2) = AdminApi.logout hdr db) ∧
    (∀ db : DB, (AdminApi.logout none db).2 = db) := by
  refine ⟨?_, ?_, ?_, ?_⟩
  · intro hdr db
    cases hdr with
    | none => rfl
    | some h =>
      unfold AdminApi.logout
      by_cases hs : startsWithS h "Bearer " = true
      · simp [hs]
      · simp only [Bool.not_eq_true] at hs
        simp [hs]
  · intro h db hs
    unfold AdminApi.logout
    simp [hs]
  · intro hdr db
    cases hdr with
    | none => rfl
    | some h =>
      by_cases hs : startsWithS h "Bearer " = true
      · unfold AdminApi.logout
        simp only [hs, if_true]
        ext : 1
        · rfl
        · simp [filter_idem]
      · simp only [Bool.not_eq_true] at hs
        unfold AdminApi.logout
        simp [hs]
  · intro db
    rfl

/-- Witness for C8: concrete logout with a Bearer token deletes exactly
that session row. -/
theorem C8_logout_witness :
    (AdminApi.logout (some "Bearer T") ⟨[], [], [], [⟨1, "T", "a@b.c", 5, 0⟩]⟩).2.sessions =
      ([⟨1, "T", "a@b.c", 5, 0⟩] : List Session).filter
        (fun s => !(s.token == ("Bearer T".drop 7))) :=
  C8_logout_always_succeeds.2.1 "Bearer T" ⟨[], [], [], [⟨1, "T", "a@b.c", 5, 0⟩]⟩ (by decide)

/-- Claim C5 counterexample: a request whose path ends in the blocked
extension .php but whose declared content-length exceeds 1 MiB is
answered 413 by the earlier oversized rule, not 404 as the claim
demands for every request with a blocked extension. -/
theorem C5_blocked_extension_cex :
    isBlockedExtension "/x.php" = true ∧
    edgeDecision ⟨"GET", "/x.php", "", some "Mozilla", some "2000000", []⟩ =
      EdgeDecision.block 413 ∧
    edgeDecision ⟨"GET", "/x.php", "", some "Mozilla", some "2000000", []⟩ ≠
      EdgeDecision.block 404 := by
  decide

/-- Claim C5 (corrected): for every request that is not oversized
(content-length at most 1 MiB) whose lowercased path suffix matches the
extension denylist, the edge filter returns 404, regardless of method. -/
theorem C5_blocked_extension_amended (r : EdgeRequest)
    (hsize : isOversizedRequest r = false)
    (hext : isBlockedExtension r.pathname = true) :
    edgeDecision r = EdgeDecision.block 404 := by
  unfold edgeDecision
  simp [hsize, hext]

/-- Witness for C5: a non-oversized DELETE request for a .php path is
blocked 404 (the method does not matter). -/
theorem C5_blocked_extension_witness :
    edgeDecision ⟨"DELETE", "/shell.PHP", "", some "Mozilla", none, []⟩ =
      EdgeDecision.block 404 :=
  C5_blocked_extension_amended ⟨"DELETE", "/shell.PHP", "", some "Mozilla", none, []⟩
    (by decide) (by decide)

/-- Claim C9 (confirmed): in the user-agent rule of the edge filter,
the known-malicious subset of the scanner denylist is indeed a subset
of it, a request reaching the rule with a user-agent matching that
subset is rejected 403, and a request whose user-agent is empty (or
absent) or matches only the remainder of the denylist continues past
the rule to the method policy. -/
theorem C9_user_agent_rule :
    (∀ ua : String, maliciousUA ua = true → blockedUserAgents ua = true) ∧
    (∀ r : EdgeRequest,
      isOversizedRequest r = false →
      isBlockedExtension r.pathname = false →
      isBlockedPath r.pathname = false →
      hasSuspiciousQuery r.search = false →
      hasSuspiciousHeaders r = false →
      (maliciousUATest r.userAgent = true →
        edgeDecision r = EdgeDecision.block 403) ∧
      (isSuspiciousUserAgent r.userAgent = true →
        maliciousUATest r.userAgent = false →
        edgeDecision r = methodPhase r)) := by
  have hsub : ∀ ua : String, maliciousUA ua = true → blockedUserAgents ua = true := by
    intro ua h
    unfold maliciousUA at h
    unfold blockedUserAgents
    simp only [Bool.or_eq_true] at h ⊢
    tauto
  refine ⟨hsub, ?_⟩
  intro r h1 h2 h3 h4 h5
  constructor
  · intro hmal
    have hsusp : isSuspiciousUserAgent r.userAgent = true := by
      cases hua : r.userAgent with
      | none => rfl
      | some ua =>
        rw [hua] at hmal
        unfold maliciousUATest at hmal
        rw [Bool.and_eq_true] at hmal
        unfold isSuspiciousUserAgent
        exact hsub ua hmal.2
    unfold edgeDecision
    simp [h1, h2, h3, h4, h5, hsusp, hmal]
  · intro hsusp hmal
    unfold edgeDecision
    simp [h1, h2, h3, h4, h5, hsusp, hmal]

/-- Witness for C9: a clean request with user-agent sqlmap is rejected
403; the same request with the scanner signature nmap (in the denylist
but not the malicious subset) or with an empty user-agent proceeds to
the method policy. -/
theorem C9_user_agent_rule_witness :
    edgeDecision ⟨"GET", "/", "", some "sqlmap/1.0", none, []⟩ = EdgeDecision.block 403 ∧
    edgeDecision ⟨"GET", "/", "", some "nmap scripting engine", none, []⟩ =
      methodPhase ⟨"GET", "/", "", some "nmap scripting engine", none, []⟩ ∧
    edgeDecision ⟨"GET", "/", "", some "", none, []⟩ =
      methodPhase ⟨"GET", "/", "", some "", none, []⟩ := by
  refine ⟨?_, ?_, ?_⟩
  · exact ((C9_user_agent_rule.2 ⟨"GET", "/", "", some "sqlmap/1.0", none, []⟩
      (by decide) (by decide) (by decide) (by decide) (by decide)).1 (by decide))
  · exact ((C9_user_agent_rule.2 ⟨"GET", "/", "", some "nmap scripting engine", none, []⟩
      (by decide) (by decide) (by decide) (by decide) (by decide)).2 (by decide) (by decide))
  · exact ((C9_user_agent_rule.2 ⟨"GET", "/", "", some "", none, []⟩
      (by decide) (by decide) (by decide) (by decide) (by decide)).2 (by decide) (by decide))

/-- A stored code that is used, or expired, whenever it matches the
submitted email and value, fails the verifyOTP lookup predicate. -/
theorem otpMatch_eq_false (e c : String) (now : Time) (x : OtpCode)
    (h : x.email = lowerS e → x.code = c → (x.used = true ∨ x.expiresAt ≤ now)) :
    otpMatch e c now x = false := by
  rw [← Bool.not_eq_true, otpMatch_eq_true_iff]
  rintro ⟨h1, h2, h3, h4⟩
  rcases h h1 h2 with hu | hex
  · rw [h4] at hu
    exact absurd hu (by decide)
  · exact absurd h3 (not_lt.mpr hex)

/-- Claim C2 counterexample: five codes issued to the admin email 12
minutes before the call lie within the trailing 15-minute window, yet
the next request-code call succeeds with sent:true instead of 429,
because the codes expired at 10 minutes and the purge removes them
before the rate-limit count. -/
theorem C2_rate_limit_cex :
    ((([⟨1, "a@b.c", "111111", 880, false, 280⟩, ⟨2, "a@b.c", "111111", 880, false, 280⟩,
        ⟨3, "a@b.c", "111111", 880, false, 280⟩, ⟨4, "a@b.c", "111111", 880, false, 280⟩,
        ⟨5, "a@b.c", "111111", 880, false, 280⟩] : List OtpCode).countP
      (fun x => x.email == "a@b.c" && decide ((1000 : Time) - 900 < x.createdAt))) = 5) ∧
    (sendOTP ⟨some "a@b.c", some "K", some "F"⟩ 1000 "999999" true (some "a@b.c")
        ⟨[], [], [⟨1, "a@b.c", "111111", 880, false, 280⟩, ⟨2, "a@b.c", "111111", 880, false, 280⟩,
          ⟨3, "a@b.c", "111111", 880, false, 280⟩, ⟨4, "a@b.c", "111111", 880, false, 280⟩,
          ⟨5, "a@b.c", "111111", 880, false, 280⟩], []⟩).1 = ⟨200, ABody.sent⟩ := by
  decide

/-- Claim C2 (corrected): the rate limit counts only codes that survive
the expired-code purge, so the request-code call is rejected 429
exactly when at least 5 stored codes for the email are unexpired
(expiry at or after now) and created within the trailing 15 minutes;
the resulting store is the purged table. -/
theorem C2_rate_limit_amended (env : Env) (a e newCode : String) (now : Time)
    (emailSendOk : Bool) (db : DB)
    (hEnv : env.adminEmail = some a) (ha : a ≠ "") (he : e ≠ "")
    (hlow : lowerS e = lowerS a)
    (hcount : 5 ≤ (db.otpCodes.filter (fun x => !decide (x.expiresAt < now))).countP
        (fun x => x.email == lowerS e && decide (now - 900 < x.createdAt))) :
    sendOTP env now newCode emailSendOk (some e) db =
      (errResp "Too many attempts. Try again later." 429,
        { db with otpCodes := db.otpCodes.filter (fun x => !decide (x.expiresAt < now)) }) := by
  have he' : (e == "") = false := beq_eq_false_iff_ne.mpr he
  have ha' : (a == "") = false := beq_eq_false_iff_ne.mpr ha
  unfold sendOTP
  rw [hEnv]
  simp only [jsFalsy, he', ha', Option.getD_some, Bool.false_eq_true, if_false, hlow,
    bne_self_eq_false]
  rw [if_pos (hlow ▸ hcount)]

/-- Claim C3 counterexample: with the mailer configured and five fresh
codes stored for the admin email, the request-code call with the admin
email answers 429 while the same call with a non-admin email answers
sent:true — the wire response is not unconditional and reveals whether
the email matches the configured admin. -/
theorem C3_wire_response_cex :
    (sendOTP ⟨some "a@b.c", some "K", some "F"⟩ 200 "999999" true (some "a@b.c")
        ⟨[], [], [⟨1, "a@b.c", "111111", 700, false, 100⟩, ⟨2, "a@b.c", "111111", 700, false, 100⟩,
          ⟨3, "a@b.c", "111111", 700, false, 100⟩, ⟨4, "a@b.c", "111111", 700, false, 100⟩,
          ⟨5, "a@b.c", "111111", 700, false, 100⟩], []⟩).1.status = 429 ∧
    (sendOTP ⟨some "a@b.c", some "K", some "F"⟩ 200 "999999" true (some "x@y.z")
        ⟨[], [], [⟨1, "a@b.c", "111111", 700, false, 100⟩, ⟨2, "a@b.c", "111111", 700, false, 100⟩,
          ⟨3, "a@b.c", "111111", 700, false, 100⟩, ⟨4, "a@b.c", "111111", 700, false, 100⟩,
          ⟨5, "a@b.c", "111111", 700, false, 100⟩], []⟩).1 = ⟨200, ABody.sent⟩ := by
  decide

/-- Claim C3 (corrected): the request-code call answers sent:true with
the store untouched for every non-empty email that does not match the
configured admin; for the admin email it answers the same sent:true
only when the rate limit has headroom, the mailer is configured and the
send succeeds — only under those conditions are the two runs
indistinguishable on the wire. -/
theorem C3_wire_response_amended (env : Env) (a : String) (now : Time)
    (newCode : String) (db : DB)
    (hEnv : env.adminEmail = some a) (ha : a ≠ "") :
    (∀ e : String, e ≠ "" → lowerS e ≠ lowerS a →
      sendOTP env now newCode true (some e) db = (⟨200, ABody.sent⟩, db)) ∧
    (∀ e : String, e ≠ "" → lowerS e = lowerS a →
      jsFalsy env.resendApiKey = false → jsFalsy env.fromEmail = false →
      (db.otpCodes.filter (fun x => !decide (x.expiresAt < now))).countP
        (fun x => x.email == lowerS e && decide (now - 900 < x.createdAt)) < 5 →
      (sendOTP env now newCode true (some e) db).1 = ⟨200, ABody.sent⟩) := by
  have ha' : (a == "") = false := beq_eq_false_iff_ne.mpr ha
  constructor
  · intro e he hne
    have he' : (e == "") = false := beq_eq_false_iff_ne.mpr he
    have hbne : (lowerS e != lowerS a) = true := bne_iff_ne.mpr hne
    unfold sendOTP
    rw [hEnv]
    simp only [jsFalsy, he', ha', Option.getD_some, Bool.false_eq_true, if_false, hbne, if_true]
  · intro e he hlow hkey hfrom hlt
    have he' : (e == "") = false := beq_eq_false_iff_ne.mpr he
    have hnot : ¬(5 ≤ (db.otpCodes.filter (fun x => !decide (x.expiresAt < now))).countP
        (fun x => x.email == lowerS e && decide (now - 900 < x.createdAt))) :=
      Nat.not_le.mpr hlt
    unfold sendOTP
    rw [hEnv]
    simp only [hkey, hfrom]
    simp only [jsFalsy, he', ha', Option.getD_some, Bool.false_eq_true, if_false, hlow,
      bne_self_eq_false]
    rw [if_neg (hlow ▸ hnot)]
    simp only [Bool.or_self, Bool.false_eq_true, if_false, Bool.not_true]

/-- Claim C7 (confirmed): a code is written by the request-code call
with expiry exactly 600 seconds (10 minutes) after its creation time,
and the verify call rejects 401 with the store untouched whenever every
stored code matching the submitted email and value has its expiry at or
before now — even with the admin email, a matching value and an unused
code. -/
theorem C7_code_expiry (env : Env) (a : String) :
    (∀ (e newCode : String) (now : Time) (db : DB),
      env.adminEmail = some a → a ≠ "" → e ≠ "" → lowerS e = lowerS a →
      jsFalsy env.resendApiKey = false → jsFalsy env.fromEmail = false →
      (db.otpCodes.filter (fun x => !decide (x.expiresAt < now))).countP
        (fun x => x.email == lowerS e && decide (now - 900 < x.createdAt)) < 5 →
      (sendOTP env now newCode true (some e) db).2.otpCodes =
        db.otpCodes.filter (fun x => !decide (x.expiresAt < now)) ++
          [⟨nextOtpId (db.otpCodes.filter (fun x => !decide (x.expiresAt < now))),
            lowerS e, newCode, now + 600, false, now⟩]) ∧
    (∀ (e c newToken : String) (now : Time) (db : DB),
      env.adminEmail = some a → a ≠ "" → e ≠ "" → c ≠ "" → lowerS e = lowerS a →
      (∀ x ∈ db.otpCodes, x.email = lowerS e → x.code = c → x.expiresAt ≤ now) →
      verifyOTP env now newToken (some e) (some c) db =
        (errResp "Invalid or expired code" 401, db)) := by
  constructor
  · intro e newCode now db hEnv ha he hlow hkey hfrom hlt
    have he' : (e == "") = false := beq_eq_false_iff_ne.mpr he
    have ha' : (a == "") = false := beq_eq_false_iff_ne.mpr ha
    have hnot : ¬(5 ≤ (db.otpCodes.filter (fun x => !decide (x.expiresAt < now))).countP
        (fun x => x.email == lowerS e && decide (now - 900 < x.createdAt))) :=
      Nat.not_le.mpr hlt
    unfold sendOTP
    rw [hEnv]
    simp only [hkey, hfrom]
    simp only [jsFalsy, he', ha', Option.getD_some, Bool.false_eq_true, if_false, hlow,
      bne_self_eq_false]
    rw [if_neg (hlow ▸ hnot)]
    simp only [Bool.or_self, Bool.false_eq_true, if_false, Bool.not_true]
  · intro e c newToken now db hEnv ha he hc hlow hexp
    have he' : (e == "") = false := beq_eq_false_iff_ne.mpr he
    have hc' : (c == "") = false := beq_eq_false_iff_ne.mpr hc
    have ha' : (a == "") = false := beq_eq_false_iff_ne.mpr ha
    have hm := latestMatch_of_none (otpMatch e c now) db.otpCodes
      (fun x hx => otpMatch_eq_false e c now x (fun h1 h2 => Or.inr (hexp x hx h1 h2)))
    unfold verifyOTP
    rw [hEnv]
    simp only [jsFalsy, he', hc', ha', Option.getD_some, Bool.or_self, Bool.false_eq_true,
      if_false, hlow, bne_self_eq_false, hm]

/-- Witness for C2: a sixth request-code call with five unexpired codes
issued one minute earlier is rejected 429. -/
theorem C2_rate_limit_witness :
    sendOTP ⟨some "a@b.c", some "K", some "F"⟩ 200 "999999" true (some "a@b.c")
        ⟨[], [], [⟨1, "a@b.c", "111111", 700, false, 140⟩, ⟨2, "a@b.c", "111111", 700, false, 140⟩,
          ⟨3, "a@b.c", "111111", 700, false, 140⟩, ⟨4, "a@b.c", "111111", 700, false, 140⟩,
          ⟨5, "a@b.c", "111111", 700, false, 140⟩], []⟩ =
      (errResp "Too many attempts. Try again later." 429,
        { (⟨[], [], [⟨1, "a@b.c", "111111", 700, false, 140⟩, ⟨2, "a@b.c", "111111", 700, false, 140⟩,
            ⟨3, "a@b.c", "111111", 700, false, 140⟩, ⟨4, "a@b.c", "111111", 700, false, 140⟩,
            ⟨5, "a@b.c", "111111", 700, false, 140⟩], []⟩ : DB) with
          otpCodes := (⟨[], [], [⟨1, "a@b.c", "111111", 700, false, 140⟩, ⟨2, "a@b.c", "111111", 700, false, 140⟩,
            ⟨3, "a@b.c", "111111", 700, false, 140⟩, ⟨4, "a@b.c", "111111", 700, false, 140⟩,
            ⟨5, "a@b.c", "111111", 700, false, 140⟩], []⟩ : DB).otpCodes.filter
              (fun x => !decide (x.expiresAt < (200 : Time))) }) :=
  C2_rate_limit_amended ⟨some "a@b.c", some "K", some "F"⟩ "a@b.c" "a@b.c" "999999" 200 true
    ⟨[], [], [⟨1, "a@b.c", "111111", 700, false, 140⟩, ⟨2, "a@b.c", "111111", 700, false, 140⟩,
      ⟨3, "a@b.c", "111111", 700, false, 140⟩, ⟨4, "a@b.c", "111111", 700, false, 140⟩,
      ⟨5, "a@b.c", "111111", 700, false, 140⟩], []⟩ rfl (by decide) (by decide) rfl (by decide)

/-- Witness for C3: with headroom and the mailer configured, both the
non-admin and the admin run answer sent:true. -/
theorem C3_wire_response_witness :
    sendOTP ⟨some "a@b.c", some "K", some "F"⟩ 0 "123456" true (some "x@y.z") ⟨[], [], [], []⟩ =
      (⟨200, ABody.sent⟩, ⟨[], [], [], []⟩) ∧
    (sendOTP ⟨some "a@b.c", some "K", some "F"⟩ 0 "123456" true (some "a@b.c")
      ⟨[], [], [], []⟩).1 = ⟨200, ABody.sent⟩ := by
  constructor
  · exact (C3_wire_response_amended ⟨some "a@b.c", some "K", some "F"⟩ "a@b.c" 0 "123456"
      ⟨[], [], [], []⟩ rfl (by decide)).1 "x@y.z" (by decide) (by decide)
  · exact (C3_wire_response_amended ⟨some "a@b.c", some "K", some "F"⟩ "a@b.c" 0 "123456"
      ⟨[], [], [], []⟩ rfl (by decide)).2 "a@b.c" (by decide) rfl (by decide) (by decide) (by decide)

/-- Witness for C7: a code created at time 0 carries expiry 600, and a
verify call at time 600 (exactly 10 minutes later) is rejected 401 even
though email and value match and the code is unused. -/
theorem C7_code_expiry_witness :
    (sendOTP ⟨some "a@b.c", some "K", some "F"⟩ 0 "123456" true (some "a@b.c")
      ⟨[], [], [], []⟩).2.otpCodes =
      ([] : List OtpCode) ++ [⟨nextOtpId [], "a@b.c", "123456", 600, false, 0⟩] ∧
    verifyOTP ⟨some "a@b.c", some "K", some "F"⟩ 600 "T" (some "a@b.c") (some "123456")
        ⟨[], [], [⟨1, "a@b.c", "123456", 600, false, 0⟩], []⟩ =
      (errResp "Invalid or expired code" 401,
        ⟨[], [], [⟨1, "a@b.c", "123456", 600, false, 0⟩], []⟩) := by
  constructor
  · have h := (C7_code_expiry ⟨some "a@b.c", some "K", some "F"⟩ "a@b.c").1
      "a@b.c" "123456" 0 ⟨[], [], [], []⟩ rfl (by decide) (by decide) rfl (by decide) (by decide)
      (by decide)
    simpa using h
  · exact (C7_code_expiry ⟨some "a@b.c", some "K", some "F"⟩ "a@b.c").2
      "a@b.c" "123456" "T" 600 ⟨[], [], [⟨1, "a@b.c", "123456", 600, false, 0⟩], []⟩
      rfl (by decide) (by decide) (by decide) rfl (by decide)

/-- Claim C1 counterexample: with two stored unused, unexpired codes
carrying the same value for the admin email, the first verify succeeds
and marks only the most recent row used, so replaying the same code
against the resulting state succeeds again with 200 instead of failing
with 401. -/
theorem C1_single_use_cex :
    ((verifyOTP ⟨some "a@b.c", some "K", some "F"⟩ 0 "T" (some "a@b.c") (some "123456")
        ⟨[], [], [⟨1, "a@b.c", "123456", 600, false, 0⟩,
          ⟨2, "a@b.c", "123456", 600, false, 0⟩], []⟩).1).status = 200 ∧
    ((verifyOTP ⟨some "a@b.c", some "K", some "F"⟩ 0 "U" (some "a@b.c") (some "123456")
        (verifyOTP ⟨some "a@b.c", some "K", some "F"⟩ 0 "T" (some "a@b.c") (some "123456")
          ⟨[], [], [⟨1, "a@b.c", "123456", 600, false, 0⟩,
            ⟨2, "a@b.c", "123456", 600, false, 0⟩], []⟩).2).1).status = 200 ∧
    ((verifyOTP ⟨some "a@b.c", some "K", some "F"⟩ 0 "U" (some "a@b.c") (some "123456")
        (verifyOTP ⟨some "a@b.c", some "K", some "F"⟩ 0 "T" (some "a@b.c") (some "123456")
          ⟨[], [], [⟨1, "a@b.c", "123456", 600, false, 0⟩,
            ⟨2, "a@b.c", "123456", 600, false, 0⟩], []⟩).2).1).status ≠ 401 := by
  decide

/-- Claim C1 (corrected): when the stored code is the only unused,
unexpired row with its email and value, the first verify call with the
admin email succeeds, returns the minted token, marks that code used,
and every later replay of the same code against the resulting state
fails 401. -/
theorem C1_single_use_amended (env : Env) (a e c tok1 : String) (now1 : Time)
    (o : OtpCode) (db : DB)
    (hEnv : env.adminEmail = some a) (ha : a ≠ "") (he : e ≠ "") (hc : c ≠ "")
    (hlow : lowerS e = lowerS a)
    (hmem : o ∈ db.otpCodes) (hmatch : otpMatch e c now1 o = true)
    (hothers : ∀ x ∈ db.otpCodes, x ≠ o → x.email = lowerS e → x.code = c →
      (x.used = true ∨ x.expiresAt ≤ now1)) :
    (verifyOTP env now1 tok1 (some e) (some c) db).1 = ⟨200, ABody.tokenBody tok1 86400⟩ ∧
    { o with used := true } ∈ (verifyOTP env now1 tok1 (some e) (some c) db).2.otpCodes ∧
    (∀ (tok2 : String) (now2 : Time), now1 ≤ now2 →
      (verifyOTP env now2 tok2 (some e) (some c)
          (verifyOTP env now1 tok1 (some e) (some c) db).2).1 =
        errResp "Invalid or expired code" 401) := by
  have he' : (e == "") = false := beq_eq_false_iff_ne.mpr he
  have hc' : (c == "") = false := beq_eq_false_iff_ne.mpr hc
  have ha' : (a == "") = false := beq_eq_false_iff_ne.mpr ha
  have huniq : ∀ x ∈ db.otpCodes, otpMatch e c now1 x = true → x = o := by
    intro x hx hpx
    by_contra hne
    rw [otpMatch_eq_true_iff] at hpx
    obtain ⟨h1, h2, h3, h4⟩ := hpx
    rcases hothers x hx hne h1 h2 with hu | hex
    · rw [h4] at hu
      exact absurd hu (by decide)
    · exact absurd h3 (not_lt.mpr hex)
  have hm1 := latestMatch_of_unique (otpMatch e c now1) db.otpCodes o hmem hmatch huniq
  have hrun : verifyOTP env now1 tok1 (some e) (some c) db =
      (⟨200, ABody.tokenBody tok1 86400⟩,
        { db with
          otpCodes := db.otpCodes.map
            (fun x => if x.id == o.id then { x with used := true } else x),
          sessions := db.sessions.filter (fun s => !decide (s.expiresAt < now1)) ++
            [⟨nextSessionId (db.sessions.filter (fun s => !decide (s.expiresAt < now1))),
              tok1, lowerS e, now1 + 86400, now1⟩] }) := by
    unfold verifyOTP
    rw [hEnv]
    simp only [jsFalsy, he', hc', ha', Option.getD_some, Bool.or_self, Bool.false_eq_true,
      if_false, hlow, bne_self_eq_false, hm1]
  refine ⟨by rw [hrun], ?_, ?_⟩
  · rw [hrun]
    have heq : { o with used := true } =
        (fun x => if x.id == o.id then { x with used := true } else x) o := by
      simp
    rw [heq]
    exact List.mem_map_of_mem _ hmem
  · intro tok2 now2 h12
    rw [hrun]
    have hall : ∀ x ∈ db.otpCodes.map
        (fun x => if x.id == o.id then { x with used := true } else x),
        otpMatch e c now2 x = false := by
      intro y hy
      rw [List.mem_map] at hy
      obtain ⟨x, hx, rfl⟩ := hy
      by_cases hid : (x.id == o.id) = true
      · simp only [hid, if_true]
        exact otpMatch_eq_false e c now2 _ (fun _ _ => Or.inl rfl)
      · simp only [Bool.not_eq_true] at hid
        simp only [hid, Bool.false_eq_true, if_false]
        have hne : x ≠ o := by
          intro hxo
          rw [hxo] at hid
          simp at hid
        refine otpMatch_eq_false e c now2 x (fun h1 h2 => ?_)
        rcases hothers x hx hne h1 h2 with hu | hex
        · exact Or.inl hu
        · exact Or.inr (le_trans hex h12)
    have hm2 := latestMatch_of_none (otpMatch e c now2) _ hall
    unfold verifyOTP
    rw [hEnv]
    simp only [jsFalsy, he', hc', ha', Option.getD_some, Bool.or_self, Bool.false_eq_true,
      if_false, hlow, bne_self_eq_false, hm2]

/-- Witness for C1: one stored unused, unexpired code; verify succeeds,
marks it used, and an immediate replay fails 401. -/
theorem C1_single_use_witness :
    (verifyOTP ⟨some "a@b.c", some "K", some "F"⟩ 0 "T" (some "a@b.c") (some "123456")
        ⟨[], [], [⟨1, "a@b.c", "123456", 600, false, 0⟩], []⟩).1 =
      ⟨200, ABody.tokenBody "T" 86400⟩ ∧
    ({ (⟨1, "a@b.c", "123456", 600, false, 0⟩ : OtpCode) with used := true }) ∈
      (verifyOTP ⟨some "a@b.c", some "K", some "F"⟩ 0 "T" (some "a@b.c") (some "123456")
        ⟨[], [], [⟨1, "a@b.c", "123456", 600, false, 0⟩], []⟩).2.otpCodes ∧
    (verifyOTP ⟨some "a@b.c", some "K", some "F"⟩ 1 "U" (some "a@b.c") (some "123456")
        (verifyOTP ⟨some "a@b.c", some "K", some "F"⟩ 0 "T" (some "a@b.c") (some "123456")
          ⟨[], [], [⟨1, "a@b.c", "123456", 600, false, 0⟩], []⟩).2).1 =
      errResp "Invalid or expired code" 401 := by
  have h := C1_single_use_amended ⟨some "a@b.c", some "K", some "F"⟩ "a@b.c" "a@b.c" "123456"
    "T" 0 ⟨1, "a@b.c", "123456", 600, false, 0⟩
    ⟨[], [], [⟨1, "a@b.c", "123456", 600, false, 0⟩], []⟩
    rfl (by decide) (by decide) (by decide) rfl (by decide) (by decide)
    (by decide)
  exact ⟨h.1, h.2.1, h.2.2 "U" 1 (by decide)⟩

/-- Claim C4 counterexample: a session expired a day earlier fails
checkAuth, yet an OPTIONS request to an admin route presenting exactly
that token is answered 204, not 401 — so not every request presenting
the token after the boundary returns 401. -/
theorem C4_session_expiry_cex :
    checkAuth (some "Bearer TOK") 172800 ⟨[], [], [], [⟨1, "TOK", "a@b.c", 86400, 0⟩]⟩ = false ∧
    (AdminApi.handler ⟨some "a@b.c", some "K", some "F"⟩ 172800 "c" "t" true
        ⟨"OPTIONS", "/api/admin/clients", some "Bearer TOK", none, none, none,
          ⟨none, none, none, none, none, none, none, none, none, none, none, none⟩⟩
        ⟨[], [], [], [⟨1, "TOK", "a@b.c", 86400, 0⟩]⟩).1.status = 204 ∧
    (AdminApi.handler ⟨some "a@b.c", some "K", some "F"⟩ 172800 "c" "t" true
        ⟨"OPTIONS", "/api/admin/clients", some "Bearer TOK", none, none, none,
          ⟨none, none, none, none, none, none, none, none, none, none, none, none⟩⟩
        ⟨[], [], [], [⟨1, "TOK", "a@b.c", 86400, 0⟩]⟩).1.status ≠ 401 := by
  decide

/-- Claim C4 (corrected): a token authenticates iff a session row
matches it exactly with expiry strictly in the future; the session
minted by a successful verify expires exactly 86400 seconds (24 hours)
after issuance; and every request other than the CORS preflight and
the three unauthenticated OTP POST routes that presents a token whose
session rows have all reached their expiry is answered 401. -/
theorem C4_session_expiry_amended :
    (∀ (hdr : Option String) (now : Time) (db : DB),
      checkAuth hdr now db = true ↔
        ∃ h, hdr = some h ∧ startsWithS h "Bearer " = true ∧
          ∃ s ∈ db.sessions, s.token = h.drop 7 ∧ now < s.expiresAt) ∧
    (∀ (env : Env) (a e c newToken : String) (now : Time) (db : DB) (o : OtpCode),
      env.adminEmail = some a → a ≠ "" → e ≠ "" → c ≠ "" → lowerS e = lowerS a →
      latestMatch (otpMatch e c now) db.otpCodes = some o →
      ∃ s ∈ (verifyOTP env now newToken (some e) (some c) db).2.sessions,
        s.token = newToken ∧ s.expiresAt = now + 86400 ∧ s.createdAt = now) ∧
    (∀ (env : Env) (now : Time) (newCode newToken : String) (ok : Bool)
        (req : AdminReq) (db : DB) (h : String),
      req.method ≠ "OPTIONS" →
      (req.method == "POST" && endsWithS req.pathname "/api/admin/otp/send") = false →
      (req.method == "POST" && endsWithS req.pathname "/api/admin/otp/verify") = false →
      (req.method == "POST" && endsWithS req.pathname "/api/admin/otp/logout") = false →
      req.authHeader = some h →
      (∀ s ∈ db.sessions, s.token = h.drop 7 → s.expiresAt ≤ now) →
      (AdminApi.handler env now newCode newToken ok req db).1 =
        errResp "Unauthorized" 401) := by
  refine ⟨?_, ?_, ?_⟩
  · intro hdr now db
    cases hdr with
    | none =>
      unfold checkAuth
      simp
    | some h =>
      unfold checkAuth
      by_cases hs : startsWithS h "Bearer " = true
      · simp only [hs, if_true, List.any_eq_true, Bool.and_eq_true, beq_iff_eq,
          decide_eq_true_eq, Option.some.injEq]
        constructor
        · rintro ⟨s, hsmem, hst, hse⟩
          exact ⟨h, rfl, hs, s, hsmem, hst, hse⟩
        · rintro ⟨h2, rfl, _, s, hsmem, hst, hse⟩
          exact ⟨s, hsmem, hst, hse⟩
      · simp only [Bool.not_eq_true] at hs
        simp only [hs, Bool.false_eq_true, if_false, false_iff]
        rintro ⟨h2, heq, hsw, -⟩
        rw [Option.some.injEq] at heq
        rw [← heq] at hsw
        rw [hs] at hsw
        exact absurd hsw (by decide)
  · intro env a e c newToken now db o hEnv ha he hc hlow hm
    have he' : (e == "") = false := beq_eq_false_iff_ne.mpr he
    have hc' : (c == "") = false := beq_eq_false_iff_ne.mpr hc
    have ha' : (a == "") = false := beq_eq_false_iff_ne.mpr ha
    have hrun : (verifyOTP env now newToken (some e) (some c) db).2.sessions =
        db.sessions.filter (fun s => !decide (s.expiresAt < now)) ++
          [⟨nextSessionId (db.sessions.filter (fun s => !decide (s.expiresAt < now))),
            newToken, lowerS e, now + 86400, now⟩] := by
      unfold verifyOTP
      rw [hEnv]
      simp only [jsFalsy, he', hc', ha', Option.getD_some, Bool.or_self, Bool.false_eq_true,
        if_false, hlow, bne_self_eq_false, hm]
    rw [hrun]
    refine ⟨⟨nextSessionId (db.sessions.filter (fun s => !decide (s.expiresAt < now))),
      newToken, lowerS e, now + 86400, now⟩, ?_, rfl, rfl, rfl⟩
    simp
  · intro env now newCode newToken ok req db h hopt hr1 hr2 hr3 hhdr hexp
    have hopt' : (req.method == "OPTIONS") = false := beq_eq_false_iff_ne.mpr hopt
    have hca : checkAuth req.authHeader now db = false := by
      unfold checkAuth
      rw [hhdr]
      by_cases hs : startsWithS h "Bearer " = true
      · simp only [hs, if_true, List.any_eq_false]
        intro s hsmem
        by_cases ht : s.token = h.drop 7
        · have hle := hexp s hsmem ht
          simp [ht, not_lt.mpr hle]
        · simp [beq_eq_false_iff_ne.mpr ht]
      · simp only [Bool.not_eq_true] at hs
        simp [hs]
    unfold AdminApi.handler
    simp only [hopt', hr1, hr2, hr3, hca, Bool.false_eq_true, if_false, Bool.not_false, if_true]

/-- Witness for C4: a GET to the clients route presenting the token of
a session exactly at its 24-hour boundary is answered 401. -/
theorem C4_session_expiry_witness :
    (AdminApi.handler ⟨some "a@b.c", some "K", some "F"⟩ 86400 "c" "t" true
        ⟨"GET", "/api/admin/clients", some "Bearer TOK", none, none, none,
          ⟨none, none, none, none, none, none, none, none, none, none, none, none⟩⟩
        ⟨[], [], [], [⟨1, "TOK", "a@b.c", 86400, 0⟩]⟩).1 =
      errResp "Unauthorized" 401 :=
  C4_session_expiry_amended.2.2 ⟨some "a@b.c", some "K", some "F"⟩ 86400 "c" "t" true
    ⟨"GET", "/api/admin/clients", some "Bearer TOK", none, none, none,
      ⟨none, none, none, none, none, none, none, none, none, none, none, none⟩⟩
    ⟨[], [], [], [⟨1, "TOK", "a@b.c", 86400, 0⟩]⟩ "Bearer TOK"
    (by decide) (by decide) (by decide) (by decide) rfl (by decide)

/-- Claim C6 counterexample: a submission whose honeypot field website
is the non-empty blank string (with nothing else) is answered 400, not
success-200 — the guard trims the field first, so only a website that
stays non-empty after trimming trips the honeypot. -/
theorem C6_honeypot_cex :
    ((" " : String) ≠ "") ∧
    (SendEmail.handler ⟨some "K", some "C", some "F"⟩ 5 true "m" true "POST"
        (some ⟨none, none, none, none, none, none, some " "⟩) []).resp.status = 400 := by
  decide

/-- Claim C6 (corrected): for every contact submission whose website
field is non-empty after trimming, the handler answers success-200,
attempts no email send, and leaves the inquiries table unchanged. -/
theorem C6_honeypot_amended (env : MailEnv) (now : Time) (mainSendOk dbOk : Bool)
    (mainFailMsg : String) (f : Form) (inqs : List Inquiry) (w : String)
    (hw : f.website = some w) (hne : w ≠ "") (ht : trimS w ≠ "") :
    SendEmail.handler env now mainSendOk mainFailMsg dbOk "POST" (some f) inqs =
      ⟨⟨200, MBody.okBody⟩, inqs, 0⟩ := by
  have hp : honeypotTripped f = true := by
    unfold honeypotTripped
    rw [hw]
    simp only [Bool.and_eq_true, bne_iff_ne]
    exact ⟨hne, ht⟩
  unfold SendEmail.handler
  simp only [hp, if_true, bne_self_eq_false, Bool.false_eq_true, if_false]

/-- Witness for C6: a bot-like submission with a filled website field
is answered success-200 with no stored inquiry and no email attempted,
even though the inquiries table was nonempty before. -/
theorem C6_honeypot_witness :
    SendEmail.handler ⟨some "K", some "C", some "F"⟩ 7 true "m" true "POST"
        (some ⟨some "Bot", some "bot@x.y", none, none, none, some "buy", some "http://spam"⟩)
        [⟨1, none, "Prior", "p@q.r", none, none, some "hello", 0⟩] =
      ⟨⟨200, MBody.okBody⟩, [⟨1, none, "Prior", "p@q.r", none, none, some "hello", 0⟩], 0⟩ :=
  C6_honeypot_amended ⟨some "K", some "C", some "F"⟩ 7 true true "m"
    ⟨some "Bot", some "bot@x.y", none, none, none, some "buy", some "http://spam"⟩
    [⟨1, none, "Prior", "p@q.r", none, none, some "hello", 0⟩] "http://spam"
    rfl (by decide) (by decide)

